import Mathlib

/-!
Shallow embedding of the LoRa APRS iGate firmware main translation unit
(`src/LoRa_APRS_iGate.cpp`), covering the Arduino `setup`/`loop` pair, the
1 Hz timer interrupt `onTimer`, the Ethernet link event handler `WiFiEvent`,
and the beacon-timer arithmetic, together with theorems about the behaviour
of those definitions.

Modelling conventions:
* Machine integers (`volatile uint` counters, FTP connection counts) become
  `Nat`; the beacon counter is additionally mirrored over `Int` to express
  non-negativity of the guarded decrement.
* Each call to `loop()` is one application of `loopStep` to the persistent
  state (the function-local `static` booleans plus the mutated globals) and
  to an `Env` record carrying what the external collaborators report during
  that iteration (pin level, Wi-Fi status, FTP connection count, connect
  result, pending radio frames).
* `ESP.restart()` and the two early `return` statements terminate the
  iteration; they are recorded in the `Events` output of the iteration.
* The 1 Hz interrupt runs between loop iterations (the source brackets every
  access to the shared counters in `portENTER_CRITICAL`/`portEXIT_CRITICAL`
  sections, so iterations and ticks interleave atomically at that grain).
* `while (true) {}` / `while (1);` in `setup`/`load_config`/`setup_lora`
  become the terminal `SetupResult.halted` value: the boot never returns.
-/

namespace LoRaIGate

/-- Radio and relay frames are opaque text payloads (the result of
`APRSMessage::encode()`); the core never inspects them. -/
abbrev Frame := String

/-- Wi-Fi section of the project configuration (`Config->wifi`). -/
structure WifiConf where
  active : Bool
deriving DecidableEq

/-- APRS-IS section of the project configuration (`Config->aprs_is`):
`beaconTimeout` is the beacon interval in minutes. -/
structure AprsIsConf where
  active : Bool
  beacon : Bool
  beaconTimeout : Nat
deriving DecidableEq

/-- FTP section of the project configuration (`Config->ftp`). -/
structure FtpConf where
  active : Bool
deriving DecidableEq

/-- Display section of the project configuration (`Config->display`). -/
structure DisplayConf where
  alwaysOn : Bool
  timeout : Nat
  overwritePin : Nat
deriving DecidableEq

/-- The project configuration, immutable after `setup` (`Configuration *Config`).
`board_is_eth` records whether `boardConfig->Type == eETH_BOARD`. -/
structure Config where
  callsign : String
  wifi : WifiConf
  aprs_is : AprsIsConf
  ftp : FtpConf
  display : DisplayConf
  board_is_eth : Bool
deriving DecidableEq

/-- The state that persists across `loop()` calls: the function-local
`static bool` variables of `loop` (`display_is_on`, `beacon_aprs_is`,
`configWasOpen`), the connection status of the `aprs_is` object, the
`eth_connected` flag, the three `volatile uint` tick counters, and the
declared-but-unused `lastMessages` map (modelled as an association list). -/
structure LoopState where
  display_is_on : Bool
  beacon_aprs_is : Bool
  configWasOpen : Bool
  aprs_connected : Bool
  eth_connected : Bool
  secondsSinceLastAPRSISBeacon : Nat
  secondsSinceDisplay : Nat
  secondsSinceStartup : Nat
  lastMessages : List (Nat × Frame)
deriving DecidableEq

/-- What the external collaborators report during one `loop()` iteration:
`overwritePinLow` is `!digitalRead(overwritePin)`, `ftpConnections` is
`ftpServer.countConnections()`, `wifiConnected` is
`WiFiMulti.run() == WL_CONNECTED`, `connectSucceeds` the result of
`aprs_is->connect(...)`, `sessionLost` whether the established TCP session
has dropped (so `aprs_is->connected()` now reports false),
`inboundAvailable` is `aprs_is->available()`, and `radioQueue` the frames
the LoRa radio has pending (`lora_aprs->hasMessage()` is its nonemptiness,
`getMessage()` takes its head). -/
structure Env where
  overwritePinLow : Bool
  ftpConnections : Nat
  wifiConnected : Bool
  connectSucceeds : Bool
  sessionLost : Bool
  inboundAvailable : Nat
  radioQueue : List Frame
deriving DecidableEq

/-- Observable events of one `loop()` iteration: whether `ESP.restart()` ran,
the total blocking `delay(...)` milliseconds spent, whether the iteration
ended in one of the two early `return` statements, whether an APRS-IS
connection attempt was made and whether it failed, whether the inbound
APRS-IS drain ran, whether the radio was polled (`hasMessage()` reached),
how many frames were fetched (`getMessage()` calls), whether a fetched
frame was logged / shown on the display / sent to APRS-IS, the session
status at the relay step, and whether the beacon frame was sent. -/
structure Events where
  restarted : Bool
  delayMs : Nat
  earlyReturn : Bool
  connectAttempt : Bool
  connectFailed : Bool
  inboundDrained : Bool
  radioPolled : Bool
  fetchCount : Nat
  loggedFrame : Bool
  displayedFrame : Bool
  frameSentToRelay : Bool
  sessionUp : Bool
  beaconSent : Bool
deriving DecidableEq

/-- The all-quiet event record an iteration starts from. -/
def noEvents : Events :=
  { restarted := false, delayMs := 0, earlyReturn := false,
    connectAttempt := false, connectFailed := false, inboundDrained := false,
    radioPolled := false, fetchCount := 0, loggedFrame := false,
    displayedFrame := false, frameSentToRelay := false, sessionUp := false,
    beaconSent := false }

/-- The beacon-timer check of `loop` lines 176-180: given the interval in
seconds `T` and the current counter `e`, if `T ≤ e` the counter is
decremented by `T` (inside the critical section) and the due flag is
raised; otherwise nothing happens. -/
def beaconCheck (T e : Nat) : Nat × Bool :=
  if T ≤ e then (e - T, true) else (e, false)

/-- Display handling, `loop` lines 162-172: a low overwrite pin forces the
display on and resets the idle counter; otherwise an idle timeout on a
non-always-on display turns it off. -/
def phDisplay (cfg : Config) (pinLow : Bool) (s : LoopState) : LoopState :=
  if cfg.display.overwritePin != 0 && pinLow then
    { s with secondsSinceDisplay := 0, display_is_on := true }
  else if !cfg.display.alwaysOn && decide (cfg.display.timeout < s.secondsSinceDisplay)
      && s.display_is_on then
    { s with display_is_on := false }
  else s

/-- Beacon scheduling, `loop` lines 176-182: when APRS-IS and its beacon are
active, run `beaconCheck` on the shared counter with the configured
interval converted to seconds; on firing, record the decremented counter
and raise `beacon_aprs_is`. -/
def phBeacon (cfg : Config) (s : LoopState) : LoopState :=
  if cfg.aprs_is.active && cfg.aprs_is.beacon then
    if (beaconCheck (cfg.aprs_is.beaconTimeout * 60) s.secondsSinceLastAPRSISBeacon).2 then
      { s with
        secondsSinceLastAPRSISBeacon :=
          (beaconCheck (cfg.aprs_is.beaconTimeout * 60) s.secondsSinceLastAPRSISBeacon).1,
        beacon_aprs_is := true }
    else s
  else s

/-- The FTP restart condition of `loop` lines 188-193: FTP active, a
connection was previously observed, and zero connections are open now. -/
def ftpRestart (cfg : Config) (conns : Nat) (s : LoopState) : Bool :=
  cfg.ftp.active && s.configWasOpen && (conns == 0)

/-- The FTP observation of `loop` lines 194-197: with FTP active and at
least one open connection, latch `configWasOpen`. -/
def phFtpFlag (cfg : Config) (conns : Nat) (s : LoopState) : LoopState :=
  if cfg.ftp.active && (conns != 0) then
    { s with configWasOpen := true }
  else s

/-- The tail of a `loop` iteration that survives all early exits,
lines 227-261: drain one inbound APRS-IS line for logging, poll the radio
(`avail` is `aprs_is->available()`, `queue` the radio's pending frames)
and, if a frame is pending, fetch exactly one, show and log it, and send it
to APRS-IS when `Config->aprs_is.active`; finally, if the beacon due flag
is set, clear it and send the prebuilt beacon frame. `conn` is the value
`aprs_is->connected()` reports at this point of the iteration. -/
def loopTail (cfg : Config) (avail : Nat) (queue : List Frame) (s : LoopState)
    (conn : Bool) (ev0 : Events) : LoopState × Events :=
  match queue with
  | [] =>
    if s.beacon_aprs_is then
      ({ s with aprs_connected := conn, beacon_aprs_is := false,
                secondsSinceDisplay := 0, display_is_on := true },
       { ev0 with sessionUp := conn,
                  inboundDrained := cfg.aprs_is.active && (avail != 0),
                  radioPolled := true, beaconSent := true })
    else
      ({ s with aprs_connected := conn },
       { ev0 with sessionUp := conn,
                  inboundDrained := cfg.aprs_is.active && (avail != 0),
                  radioPolled := true })
  | _ :: _ =>
    if s.beacon_aprs_is then
      ({ s with aprs_connected := conn, beacon_aprs_is := false,
                secondsSinceDisplay := 0, display_is_on := true },
       { ev0 with sessionUp := conn,
                  inboundDrained := cfg.aprs_is.active && (avail != 0),
                  radioPolled := true, fetchCount := 1, loggedFrame := true,
                  displayedFrame := true,
                  frameSentToRelay := cfg.aprs_is.active, beaconSent := true })
    else
      ({ s with aprs_connected := conn, secondsSinceDisplay := 0,
                display_is_on := true },
       { ev0 with sessionUp := conn,
                  inboundDrained := cfg.aprs_is.active && (avail != 0),
                  radioPolled := true, fetchCount := 1, loggedFrame := true,
                  displayedFrame := true,
                  frameSentToRelay := cfg.aprs_is.active })

/-- One full call of `loop()` (`src/LoRa_APRS_iGate.cpp` lines 159-262):
display handling, beacon timer check, FTP handling with its restart path,
the Wi-Fi connectivity gate with its `delay(1000); return`, the APRS-IS
reconnect block with its `delay(5000); return` failure path, then the
drain / radio-relay / beacon-send tail. -/
def loopStep (cfg : Config) (env : Env) (s0 : LoopState) : LoopState × Events :=
  let s1 := phDisplay cfg env.overwritePinLow s0
  let s2 := phBeacon cfg s1
  if ftpRestart cfg env.ftpConnections s2 then
    (s2, { noEvents with restarted := true })
  else
    let s3 := phFtpFlag cfg env.ftpConnections s2
    if cfg.wifi.active && !env.wifiConnected then
      ({ s3 with secondsSinceDisplay := 0, display_is_on := true },
       { noEvents with delayMs := 1000, earlyReturn := true })
    else
      let conn := s3.aprs_connected && !env.sessionLost
      if (s3.eth_connected && !conn) || (cfg.aprs_is.active && !conn) then
        if env.connectSucceeds then
          loopTail cfg env.inboundAvailable env.radioQueue
            { s3 with secondsSinceDisplay := 0, display_is_on := true } true
            { noEvents with connectAttempt := true }
        else
          ({ s3 with secondsSinceDisplay := 0, display_is_on := true,
                     aprs_connected := false },
           { noEvents with connectAttempt := true, connectFailed := true,
                           delayMs := 5000, earlyReturn := true })
      else
        loopTail cfg env.inboundAvailable env.radioQueue s3 conn noEvents

/-- The 1 Hz timer interrupt `onTimer` (lines 463-470): each of the three
shared counters is incremented inside the ISR critical section. -/
def onTimer (s : LoopState) : LoopState :=
  { s with secondsSinceLastAPRSISBeacon := s.secondsSinceLastAPRSISBeacon + 1,
           secondsSinceStartup := s.secondsSinceStartup + 1,
           secondsSinceDisplay := s.secondsSinceDisplay + 1 }

/-- The Ethernet link events dispatched to `WiFiEvent` (lines 291-325). -/
inductive EthEvent
| ethStart
| ethLink
| ethGotIp
| ethDisconnected
| ethStopped
| other
deriving DecidableEq

/-- The `WiFiEvent` handler (lines 291-325): only `SYSTEM_EVENT_ETH_GOT_IP`
sets `eth_connected`, and `SYSTEM_EVENT_ETH_DISCONNECTED` /
`SYSTEM_EVENT_ETH_STOP` clear it; every other event leaves state alone. -/
def WiFiEvent : EthEvent → LoopState → LoopState
| .ethGotIp, s => { s with eth_connected := true }
| .ethDisconnected, s => { s with eth_connected := false }
| .ethStopped, s => { s with eth_connected := false }
| _, s => s

/-- The loop state right after a successful `setup()` returns: both `static`
booleans of `loop` take their initializer values on first entry
(`display_is_on = true` from line 161, `beacon_aprs_is` from line 174),
`configWasOpen` starts false (line 187), no APRS-IS session exists yet, an
Ethernet board leaves `setup_eth` only once `eth_connected` is true, the
counters are zero (`secondsSinceDisplay` is cleared at line 155), and the
`lastMessages` map (line 62) is empty. -/
def initState (cfg : Config) : LoopState :=
  { display_is_on := true
    beacon_aprs_is := cfg.aprs_is.active && cfg.aprs_is.beacon
    configWasOpen := false
    aprs_connected := false
    eth_connected := cfg.board_is_eth
    secondsSinceLastAPRSISBeacon := 0
    secondsSinceDisplay := 0
    secondsSinceStartup := 0
    lastMessages := [] }

/-- The hardware facts `setup()` discovers at boot: whether
`finder.getBoardConfig(Config->board)` finds a board, whether the fallback
`finder.searchBoardConfig()` finds one, and whether
`lora_aprs->begin(...)` succeeds. -/
structure BootEnv where
  boardFound : Bool
  searchFound : Bool
  loraBeginOk : Bool
deriving DecidableEq

/-- How a boot ends: `halted` models the infinite empty busy-wait loops
(`while (true) {}` in `setup`/`load_config`, `while (1);` in `setup_lora`)
from which the device never returns without operator intervention;
`restart` models `ESP.restart()` after a successful board search; `ok`
hands the initial loop state to the scheduler. -/
inductive SetupResult
| halted : String → SetupResult
| restart : SetupResult
| ok : LoopState → SetupResult
deriving DecidableEq

/-- The `setup()` control flow relevant to halting (lines 65-156 with
`load_config` lines 264-289 and `setup_lora` lines 419-427), in source
order: board lookup with halting fallback search (lines 74-90), then
`load_config`'s default-callsign halt (lines 268-274) and the
Wi-Fi-required-for-APRS-IS halt on non-Ethernet boards (lines 276-282),
then `setup_lora`'s halt when the radio fails to start (lines 422-427). -/
def setup (cfg : Config) (benv : BootEnv) : SetupResult :=
  if !benv.boardFound then
    if !benv.searchFound then .halted "Board config not set and search failed!"
    else .restart
  else if cfg.callsign = "NOCALL-10" then
    .halted "You have to change your settings in data/is-cfg.json"
  else if !cfg.board_is_eth && cfg.aprs_is.active && !cfg.wifi.active then
    .halted "You have to activate Wifi for APRS IS to work"
  else if !benv.loraBeginOk then
    .halted "Starting LoRa failed!"
  else .ok (initState cfg)

/-- The reachable loop states of a booted device: the state `setup` hands
over, closed under loop iterations (with arbitrary collaborator reports),
timer ticks, and Ethernet link events. -/
inductive Reachable (cfg : Config) (benv : BootEnv) : LoopState → Prop
| boot (s : LoopState) : setup cfg benv = .ok s → Reachable cfg benv s
| loop (s : LoopState) (env : Env) :
    Reachable cfg benv s → Reachable cfg benv (loopStep cfg env s).1
| tick (s : LoopState) : Reachable cfg benv s → Reachable cfg benv (onTimer s)
| eth (s : LoopState) (e : EthEvent) :
    Reachable cfg benv s → Reachable cfg benv (WiFiEvent e s)

/-- Link-layer connectivity is Up in the sense of the specification when the
active Wi-Fi interface reports connected, or the Ethernet link flag
`eth_connected` is set. -/
def linkUp (cfg : Config) (env : Env) (s : LoopState) : Bool :=
  (cfg.wifi.active && env.wifiConnected) || s.eth_connected

/-- The beacon counter after `n` rounds of one 1 Hz tick (`onTimer`)
followed by one beacon check (`loop` lines 176-182), starting from 0,
for interval `T` seconds. -/
def beaconRun (T : Nat) : Nat → Nat
| 0 => 0
| n + 1 => (beaconCheck T (beaconRun T n + 1)).1

/-- Whether the beacon check directly after tick `n` raises the due flag in
the run of `beaconRun`. -/
def beaconFired (T : Nat) : Nat → Bool
| 0 => false
| n + 1 => (beaconCheck T (beaconRun T n + 1)).2

/-- The beacon-timer check mirrored over `Int`, exactly as `beaconCheck`:
the decrement happens only under the `T ≤ e` guard (`loop` line 176). -/
def beaconCheckZ (T e : Int) : Int × Bool :=
  if T ≤ e then (e - T, true) else (e, false)

/-- All counter values after successive beacon checks over `Int`, where the
`k`-th check happens after `gaps[k]` further ticks have incremented the
counter (ticks and checks interleave arbitrarily through the gap list). -/
def statesZ (T : Int) (e : Int) : List Nat → List Int
| [] => []
| g :: gs =>
  (beaconCheckZ T (e + (g : Int))).1 ::
    statesZ T (beaconCheckZ T (e + (g : Int))).1 gs

/-- The counter values left immediately after each firing beacon check, in a
run where the `k`-th check happens after `gaps[k]` further ticks. -/
def fireValues (T e : Nat) : List Nat → List Nat
| [] => []
| g :: gs =>
  if (beaconCheck T (e + g)).2 then
    (beaconCheck T (e + g)).1 :: fireValues T (beaconCheck T (e + g)).1 gs
  else
    fireValues T (beaconCheck T (e + g)).1 gs

/-- Run a sequence of loop iterations with the given per-iteration
environments, stopping at the first iteration in which `ESP.restart()`
runs; the boolean records whether a restart happened. -/
def runTrace (cfg : Config) : LoopState → List Env → LoopState × Bool
| s, [] => (s, false)
| s, e :: es =>
  if ((loopStep cfg e s).2).restarted then ((loopStep cfg e s).1, true)
  else runTrace cfg ((loopStep cfg e s).1) es

/-- A concrete Ethernet-board configuration with APRS-IS active and Wi-Fi
inactive, as `load_config` admits for `eETH_BOARD` boards. -/
def cfgEthNoWifi : Config :=
  { callsign := "OE5BPA-10"
    wifi := { active := false }
    aprs_is := { active := true, beacon := false, beaconTimeout := 30 }
    ftp := { active := false }
    display := { alwaysOn := true, timeout := 10, overwritePin := 0 }
    board_is_eth := true }

/-- A boot environment in which the configured board is found and the LoRa
radio starts. -/
def benvOk : BootEnv :=
  { boardFound := true, searchFound := true, loraBeginOk := true }

/-- A concrete Wi-Fi board configuration with APRS-IS and its beacon
active, beacon interval 30 minutes. -/
def cfgWifiBeacon : Config :=
  { callsign := "OE5BPA-10"
    wifi := { active := true }
    aprs_is := { active := true, beacon := true, beaconTimeout := 30 }
    ftp := { active := false }
    display := { alwaysOn := true, timeout := 10, overwritePin := 0 }
    board_is_eth := false }

/-- A concrete Wi-Fi board configuration with FTP active. -/
def cfgWifiFtp : Config :=
  { callsign := "OE5BPA-10"
    wifi := { active := true }
    aprs_is := { active := true, beacon := false, beaconTimeout := 30 }
    ftp := { active := true }
    display := { alwaysOn := true, timeout := 10, overwritePin := 0 }
    board_is_eth := false }

/-- An iteration environment: Wi-Fi up, APRS-IS connect succeeds, one radio
frame pending, no FTP connections. -/
def envFrameOk : Env :=
  { overwritePinLow := false, ftpConnections := 0, wifiConnected := true,
    connectSucceeds := true, sessionLost := false, inboundAvailable := 0,
    radioQueue := ["OE5BPA-10>APLG01:test frame"] }

/-- An iteration environment: Wi-Fi up but the APRS-IS connect attempt
fails, one radio frame pending. -/
def envConnectFail : Env :=
  { overwritePinLow := false, ftpConnections := 0, wifiConnected := true,
    connectSucceeds := false, sessionLost := false, inboundAvailable := 0,
    radioQueue := ["OE5BPA-10>APLG01:test frame"] }

/-- An iteration environment in which Wi-Fi reports not connected. -/
def envWifiDown : Env :=
  { overwritePinLow := false, ftpConnections := 0, wifiConnected := false,
    connectSucceeds := false, sessionLost := false, inboundAvailable := 0,
    radioQueue := [] }

/-- An iteration environment: Wi-Fi up, connect succeeds, no radio frame. -/
def envQuiet : Env :=
  { overwritePinLow := false, ftpConnections := 0, wifiConnected := true,
    connectSucceeds := true, sessionLost := false, inboundAvailable := 0,
    radioQueue := [] }

/-- An iteration environment with one open FTP connection. -/
def envFtpOpen : Env :=
  { overwritePinLow := false, ftpConnections := 1, wifiConnected := true,
    connectSucceeds := true, sessionLost := false, inboundAvailable := 0,
    radioQueue := [] }

/-- A loop state of the Wi-Fi beacon configuration in which the startup
beacon has been consumed and the elapsed counter has just reached the
30-minute threshold. -/
def stDueNow : LoopState :=
  { initState cfgWifiBeacon with
    beacon_aprs_is := false,
    secondsSinceLastAPRSISBeacon := 1800 }

/-- The Ethernet-board state after setup followed by an
`SYSTEM_EVENT_ETH_DISCONNECTED` link event: `eth_connected` is false. -/
def stEthDown : LoopState :=
  WiFiEvent EthEvent.ethDisconnected (initState cfgEthNoWifi)

/-- A loop state of the FTP configuration in which an FTP connection has
been observed (`configWasOpen` latched). -/
def stFtpSeen : LoopState :=
  { initState cfgWifiFtp with configWasOpen := true }

/-- A configuration still carrying the shipped default callsign. -/
def cfgNoCall : Config :=
  { cfgWifiBeacon with callsign := "NOCALL-10" }

/-! ## Helper lemmas about the beacon timer -/

@[simp]
theorem beaconCheck_fst (T e : Nat) :
    (beaconCheck T e).1 = if T ≤ e then e - T else e := by
  unfold beaconCheck
  split_ifs <;> rfl

@[simp]
theorem beaconCheck_snd (T e : Nat) :
    (beaconCheck T e).2 = decide (T ≤ e) := by
  unfold beaconCheck
  split_ifs with h <;> simp [h]

theorem beaconRun_lt (T : Nat) : ∀ n : Nat, n < T → beaconRun T n = n := by
  intro n
  induction n with
  | zero => intro _; rfl
  | succ m ih =>
    intro h
    have hm : beaconRun T m = m := ih (Nat.lt_of_succ_lt h)
    unfold beaconRun
    rw [hm]
    unfold beaconCheck
    rw [if_neg (by omega)]

theorem beaconRun_fire (T : Nat) (h : 0 < T) :
    beaconFired T T = true ∧ beaconRun T T = 0 := by
  obtain ⟨m, rfl⟩ : ∃ m, T = m + 1 := ⟨T - 1, by omega⟩
  have hm : beaconRun (m + 1) m = m := beaconRun_lt (m + 1) m (by omega)
  constructor
  · show (beaconCheck (m + 1) (beaconRun (m + 1) m + 1)).2 = true
    rw [hm]
    unfold beaconCheck
    rw [if_pos (by omega)]
  · show (beaconCheck (m + 1) (beaconRun (m + 1) m + 1)).1 = 0
    rw [hm]
    unfold beaconCheck
    rw [if_pos (by omega)]
    omega

/-- C2: with the configured beacon interval of 30 minutes (`beaconTimeout`
= 30, so the threshold is `30 * 60 = 1800` seconds), a 1 Hz tick source,
and the elapsed counter `secondsSinceLastAPRSISBeacon` starting at 0, the
beacon-due check of `loop` lines 176-182 raises the due signal exactly
once within the first 1800 ticks, namely at tick 1800 and at no earlier
tick, and immediately after that firing the elapsed counter equals 0. -/
theorem claim_C2_beacon_due_exactly_at_1800 :
    (∀ n : Nat, 0 < n → n < 1800 → beaconFired (30 * 60) n = false) ∧
    beaconFired (30 * 60) 1800 = true ∧ beaconRun (30 * 60) 1800 = 0 := by
  refine ⟨?_, ?_, ?_⟩
  · intro n h0 h1
    obtain ⟨m, rfl⟩ : ∃ m, n = m + 1 := ⟨n - 1, by omega⟩
    show (beaconCheck (30 * 60) (beaconRun (30 * 60) m + 1)).2 = false
    rw [beaconRun_lt (30 * 60) m (by omega)]
    unfold beaconCheck
    rw [if_neg (by omega)]
  · exact (beaconRun_fire (30 * 60) (by norm_num)).1
  · exact (beaconRun_fire (30 * 60) (by norm_num)).2

/-- Witness for C2: the due signal is not raised at tick 7. -/
theorem claim_C2_witness : beaconFired (30 * 60) 7 = false :=
  claim_C2_beacon_due_exactly_at_1800.1 7 (by norm_num) (by norm_num)

/-- C5: (a) over the integers, mirroring the unsigned counter arithmetic,
the beacon elapsed counter stays non-negative after every check of `loop`
line 176-180, for every interleaving of ticks and checks, because the
decrement only happens under the `T ≤ elapsed` guard; (b) whenever at most
`interval*60` ticks elapse between consecutive beacon checks (the loop's
longest stall, the 5-second retry delay, is far below any whole-minute
interval) and the counter starts at or below the threshold, the counter
immediately after every firing check is at most `interval*60`. -/
theorem claim_C5_elapsed_nonneg_and_bounded :
    (∀ (T : Int) (gaps : List Nat) (e : Int), 0 ≤ e →
      ∀ x ∈ statesZ T e gaps, 0 ≤ x) ∧
    (∀ (T : Nat) (gaps : List Nat), (∀ g ∈ gaps, g ≤ T) →
      ∀ e : Nat, e ≤ T → ∀ x ∈ fireValues T e gaps, x ≤ T) := by
  constructor
  · intro T gaps
    induction gaps with
    | nil =>
      intro e _ x hx
      simp [statesZ] at hx
    | cons g gs ih =>
      intro e he x hx
      rw [statesZ, List.mem_cons] at hx
      have hr : 0 ≤ (beaconCheckZ T (e + (g : Int))).1 := by
        unfold beaconCheckZ
        split_ifs with h
        · simp only
          omega
        · simp only
          omega
      rcases hx with rfl | hx
      · exact hr
      · exact ih _ hr x hx
  · intro T gaps
    induction gaps with
    | nil =>
      intro _ e _ x hx
      simp [fireValues] at hx
    | cons g gs ih =>
      intro hg e he x hx
      have hgT : g ≤ T := hg g (List.mem_cons_self g gs)
      have hgs : ∀ a ∈ gs, a ≤ T := fun a ha => hg a (List.mem_cons_of_mem _ ha)
      rw [fireValues] at hx
      rw [beaconCheck_snd, beaconCheck_fst] at hx
      by_cases hc : T ≤ e + g
      · rw [if_pos (by simp [hc]), if_pos hc] at hx
        rcases List.mem_cons.mp hx with rfl | hx
        · omega
        · exact ih hgs (e + g - T) (by omega) x hx
      · rw [if_neg (by simp [hc]), if_neg hc] at hx
        exact ih hgs (e + g) (by omega) x hx

/-- Witness for C5: a run with one gap of 5 ticks keeps the integer counter
non-negative, and a run with gaps 60 and 30 at interval 60 leaves the
counter at 0, which is at most 60, immediately after its one firing. -/
theorem claim_C5_witness : (0 : Int) ≤ 5 ∧ (0 : Nat) ≤ 60 :=
  ⟨claim_C5_elapsed_nonneg_and_bounded.1 60 [5] 0 (by norm_num) 5 (by decide),
   claim_C5_elapsed_nonneg_and_bounded.2 60 [60, 30] (by decide) 0 (by decide)
     0 (by decide)⟩

/-! ## Helper lemmas about the phases of one loop iteration -/

@[simp]
theorem phDisplay_beacon_flag (cfg : Config) (pinLow : Bool) (s : LoopState) :
    (phDisplay cfg pinLow s).beacon_aprs_is = s.beacon_aprs_is := by
  unfold phDisplay
  split_ifs <;> rfl

@[simp]
theorem phDisplay_configWasOpen (cfg : Config) (pinLow : Bool) (s : LoopState) :
    (phDisplay cfg pinLow s).configWasOpen = s.configWasOpen := by
  unfold phDisplay
  split_ifs <;> rfl

@[simp]
theorem phDisplay_aprs_connected (cfg : Config) (pinLow : Bool) (s : LoopState) :
    (phDisplay cfg pinLow s).aprs_connected = s.aprs_connected := by
  unfold phDisplay
  split_ifs <;> rfl

@[simp]
theorem phDisplay_eth_connected (cfg : Config) (pinLow : Bool) (s : LoopState) :
    (phDisplay cfg pinLow s).eth_connected = s.eth_connected := by
  unfold phDisplay
  split_ifs <;> rfl

@[simp]
theorem phDisplay_beacon_counter (cfg : Config) (pinLow : Bool) (s : LoopState) :
    (phDisplay cfg pinLow s).secondsSinceLastAPRSISBeacon =
      s.secondsSinceLastAPRSISBeacon := by
  unfold phDisplay
  split_ifs <;> rfl

@[simp]
theorem phDisplay_lastMessages (cfg : Config) (pinLow : Bool) (s : LoopState) :
    (phDisplay cfg pinLow s).lastMessages = s.lastMessages := by
  unfold phDisplay
  split_ifs <;> rfl

@[simp]
theorem phBeacon_flag (cfg : Config) (s : LoopState) :
    (phBeacon cfg s).beacon_aprs_is =
      (s.beacon_aprs_is || (cfg.aprs_is.active && cfg.aprs_is.beacon &&
        decide (cfg.aprs_is.beaconTimeout * 60 ≤ s.secondsSinceLastAPRSISBeacon))) := by
  unfold phBeacon
  simp only [beaconCheck_snd, beaconCheck_fst]
  split_ifs with h1 h2 <;> simp_all

@[simp]
theorem phBeacon_counter (cfg : Config) (s : LoopState) :
    (phBeacon cfg s).secondsSinceLastAPRSISBeacon =
      if cfg.aprs_is.active && cfg.aprs_is.beacon &&
          decide (cfg.aprs_is.beaconTimeout * 60 ≤ s.secondsSinceLastAPRSISBeacon)
      then s.secondsSinceLastAPRSISBeacon - cfg.aprs_is.beaconTimeout * 60
      else s.secondsSinceLastAPRSISBeacon := by
  unfold phBeacon
  simp only [beaconCheck_snd, beaconCheck_fst]
  split_ifs with h1 h2 <;> simp_all
  all_goals omega

@[simp]
theorem phBeacon_configWasOpen (cfg : Config) (s : LoopState) :
    (phBeacon cfg s).configWasOpen = s.configWasOpen := by
  unfold phBeacon
  split_ifs <;> rfl

@[simp]
theorem phBeacon_aprs_connected (cfg : Config) (s : LoopState) :
    (phBeacon cfg s).aprs_connected = s.aprs_connected := by
  unfold phBeacon
  split_ifs <;> rfl

@[simp]
theorem phBeacon_eth_connected (cfg : Config) (s : LoopState) :
    (phBeacon cfg s).eth_connected = s.eth_connected := by
  unfold phBeacon
  split_ifs <;> rfl

@[simp]
theorem phBeacon_lastMessages (cfg : Config) (s : LoopState) :
    (phBeacon cfg s).lastMessages = s.lastMessages := by
  unfold phBeacon
  split_ifs <;> rfl

@[simp]
theorem phFtpFlag_configWasOpen (cfg : Config) (conns : Nat) (s : LoopState) :
    (phFtpFlag cfg conns s).configWasOpen =
      (s.configWasOpen || (cfg.ftp.active && (conns != 0))) := by
  unfold phFtpFlag
  split_ifs with h <;> simp_all

@[simp]
theorem phFtpFlag_beacon_flag (cfg : Config) (conns : Nat) (s : LoopState) :
    (phFtpFlag cfg conns s).beacon_aprs_is = s.beacon_aprs_is := by
  unfold phFtpFlag
  split_ifs <;> rfl

@[simp]
theorem phFtpFlag_aprs_connected (cfg : Config) (conns : Nat) (s : LoopState) :
    (phFtpFlag cfg conns s).aprs_connected = s.aprs_connected := by
  unfold phFtpFlag
  split_ifs <;> rfl

@[simp]
theorem phFtpFlag_eth_connected (cfg : Config) (conns : Nat) (s : LoopState) :
    (phFtpFlag cfg conns s).eth_connected = s.eth_connected := by
  unfold phFtpFlag
  split_ifs <;> rfl

@[simp]
theorem phFtpFlag_beacon_counter (cfg : Config) (conns : Nat) (s : LoopState) :
    (phFtpFlag cfg conns s).secondsSinceLastAPRSISBeacon =
      s.secondsSinceLastAPRSISBeacon := by
  unfold phFtpFlag
  split_ifs <;> rfl

@[simp]
theorem phFtpFlag_lastMessages (cfg : Config) (conns : Nat) (s : LoopState) :
    (phFtpFlag cfg conns s).lastMessages = s.lastMessages := by
  unfold phFtpFlag
  split_ifs <;> rfl

@[simp]
theorem loopTail_restarted (cfg : Config) (avail : Nat) (q : List Frame)
    (s : LoopState) (conn : Bool) (ev : Events) :
    ((loopTail cfg avail q s conn ev).2).restarted = ev.restarted := by
  cases q <;> (unfold loopTail; split_ifs <;> rfl)

@[simp]
theorem loopTail_delayMs (cfg : Config) (avail : Nat) (q : List Frame)
    (s : LoopState) (conn : Bool) (ev : Events) :
    ((loopTail cfg avail q s conn ev).2).delayMs = ev.delayMs := by
  cases q <;> (unfold loopTail; split_ifs <;> rfl)

@[simp]
theorem loopTail_earlyReturn (cfg : Config) (avail : Nat) (q : List Frame)
    (s : LoopState) (conn : Bool) (ev : Events) :
    ((loopTail cfg avail q s conn ev).2).earlyReturn = ev.earlyReturn := by
  cases q <;> (unfold loopTail; split_ifs <;> rfl)

@[simp]
theorem loopTail_connectAttempt (cfg : Config) (avail : Nat) (q : List Frame)
    (s : LoopState) (conn : Bool) (ev : Events) :
    ((loopTail cfg avail q s conn ev).2).connectAttempt = ev.connectAttempt := by
  cases q <;> (unfold loopTail; split_ifs <;> rfl)

@[simp]
theorem loopTail_connectFailed (cfg : Config) (avail : Nat) (q : List Frame)
    (s : LoopState) (conn : Bool) (ev : Events) :
    ((loopTail cfg avail q s conn ev).2).connectFailed = ev.connectFailed := by
  cases q <;> (unfold loopTail; split_ifs <;> rfl)

@[simp]
theorem loopTail_radioPolled (cfg : Config) (avail : Nat) (q : List Frame)
    (s : LoopState) (conn : Bool) (ev : Events) :
    ((loopTail cfg avail q s conn ev).2).radioPolled = true := by
  cases q <;> (unfold loopTail; split_ifs <;> rfl)

@[simp]
theorem loopTail_sessionUp (cfg : Config) (avail : Nat) (q : List Frame)
    (s : LoopState) (conn : Bool) (ev : Events) :
    ((loopTail cfg avail q s conn ev).2).sessionUp = conn := by
  cases q <;> (unfold loopTail; split_ifs <;> rfl)

@[simp]
theorem loopTail_beaconSent (cfg : Config) (avail : Nat) (q : List Frame)
    (s : LoopState) (conn : Bool) (ev : Events) :
    ((loopTail cfg avail q s conn ev).2).beaconSent =
      (s.beacon_aprs_is || ev.beaconSent) := by
  cases q <;> (unfold loopTail; split_ifs <;> simp_all)

@[simp]
theorem loopTail_beacon_flag (cfg : Config) (avail : Nat) (q : List Frame)
    (s : LoopState) (conn : Bool) (ev : Events) :
    ((loopTail cfg avail q s conn ev).1).beacon_aprs_is = false := by
  cases q <;> (unfold loopTail; split_ifs <;> simp_all)

@[simp]
theorem loopTail_configWasOpen (cfg : Config) (avail : Nat) (q : List Frame)
    (s : LoopState) (conn : Bool) (ev : Events) :
    ((loopTail cfg avail q s conn ev).1).configWasOpen = s.configWasOpen := by
  cases q <;> (unfold loopTail; split_ifs <;> rfl)

@[simp]
theorem loopTail_eth_connected (cfg : Config) (avail : Nat) (q : List Frame)
    (s : LoopState) (conn : Bool) (ev : Events) :
    ((loopTail cfg avail q s conn ev).1).eth_connected = s.eth_connected := by
  cases q <;> (unfold loopTail; split_ifs <;> rfl)

@[simp]
theorem loopTail_aprs_connected (cfg : Config) (avail : Nat) (q : List Frame)
    (s : LoopState) (conn : Bool) (ev : Events) :
    ((loopTail cfg avail q s conn ev).1).aprs_connected = conn := by
  cases q <;> (unfold loopTail; split_ifs <;> rfl)

@[simp]
theorem loopTail_beacon_counter (cfg : Config) (avail : Nat) (q : List Frame)
    (s : LoopState) (conn : Bool) (ev : Events) :
    ((loopTail cfg avail q s conn ev).1).secondsSinceLastAPRSISBeacon =
      s.secondsSinceLastAPRSISBeacon := by
  cases q <;> (unfold loopTail; split_ifs <;> rfl)

@[simp]
theorem loopTail_lastMessages (cfg : Config) (avail : Nat) (q : List Frame)
    (s : LoopState) (conn : Bool) (ev : Events) :
    ((loopTail cfg avail q s conn ev).1).lastMessages = s.lastMessages := by
  cases q <;> (unfold loopTail; split_ifs <;> rfl)

@[simp]
theorem loopTail_nil_fetchCount (cfg : Config) (avail : Nat)
    (s : LoopState) (conn : Bool) (ev : Events) :
    ((loopTail cfg avail [] s conn ev).2).fetchCount = ev.fetchCount := by
  unfold loopTail
  split_ifs <;> rfl

@[simp]
theorem loopTail_cons_fetchCount (cfg : Config) (avail : Nat) (f : Frame)
    (rest : List Frame) (s : LoopState) (conn : Bool) (ev : Events) :
    ((loopTail cfg avail (f :: rest) s conn ev).2).fetchCount = 1 := by
  unfold loopTail
  split_ifs <;> rfl

@[simp]
theorem loopTail_cons_loggedFrame (cfg : Config) (avail : Nat) (f : Frame)
    (rest : List Frame) (s : LoopState) (conn : Bool) (ev : Events) :
    ((loopTail cfg avail (f :: rest) s conn ev).2).loggedFrame = true := by
  unfold loopTail
  split_ifs <;> rfl

@[simp]
theorem loopTail_cons_displayedFrame (cfg : Config) (avail : Nat) (f : Frame)
    (rest : List Frame) (s : LoopState) (conn : Bool) (ev : Events) :
    ((loopTail cfg avail (f :: rest) s conn ev).2).displayedFrame = true := by
  unfold loopTail
  split_ifs <;> rfl

@[simp]
theorem loopTail_cons_frameSentToRelay (cfg : Config) (avail : Nat) (f : Frame)
    (rest : List Frame) (s : LoopState) (conn : Bool) (ev : Events) :
    ((loopTail cfg avail (f :: rest) s conn ev).2).frameSentToRelay =
      cfg.aprs_is.active := by
  unfold loopTail
  split_ifs <;> rfl

@[simp]
theorem loopTail_nil_frameSentToRelay (cfg : Config) (avail : Nat)
    (s : LoopState) (conn : Bool) (ev : Events) :
    ((loopTail cfg avail [] s conn ev).2).frameSentToRelay =
      ev.frameSentToRelay := by
  unfold loopTail
  split_ifs <;> rfl

/-- C1 counterexample: a concrete iteration on an Ethernet board with
APRS-IS active in which the connection attempt fails. The iteration spends
a blocking `delay(5000)` (5 seconds) and returns early, so the radio is
never polled even though a frame is pending: the retry spacing is a
blocking delay, not a non-blocking counter check, and the other polled
activities do not keep running. -/
theorem claim_C1_counterexample :
    ((loopStep cfgEthNoWifi envConnectFail (initState cfgEthNoWifi)).2).connectAttempt
        = true ∧
    ((loopStep cfgEthNoWifi envConnectFail (initState cfgEthNoWifi)).2).connectFailed
        = true ∧
    ((loopStep cfgEthNoWifi envConnectFail (initState cfgEthNoWifi)).2).delayMs
        = 5000 ∧
    envConnectFail.radioQueue ≠ [] ∧
    ((loopStep cfgEthNoWifi envConnectFail (initState cfgEthNoWifi)).2).radioPolled
        = false := by
  refine ⟨?_, ?_, ?_, ?_, ?_⟩ <;> decide

/-- C1 (amended): in every loop iteration in which the APRS-IS connection
attempt fails, the retry spacing before the next attempt is enforced by a
blocking `delay(5000)` followed by an early return from the iteration, so
the polled activities after the connect step (inbound drain, radio poll,
beacon send) do not run during that iteration. -/
theorem claim_C1_blocking_retry_delay (cfg : Config) (env : Env) (s : LoopState)
    (h : ((loopStep cfg env s).2).connectFailed = true) :
    ((loopStep cfg env s).2).delayMs = 5000 ∧
    ((loopStep cfg env s).2).earlyReturn = true ∧
    ((loopStep cfg env s).2).radioPolled = false ∧
    ((loopStep cfg env s).2).beaconSent = false := by
  simp only [loopStep] at h ⊢
  split_ifs at h ⊢ <;> simp_all [noEvents]

/-- Witness for C1 (amended), at the counterexample input. -/
theorem claim_C1_witness :
    ((loopStep cfgEthNoWifi envConnectFail (initState cfgEthNoWifi)).2).delayMs
        = 5000 ∧
    ((loopStep cfgEthNoWifi envConnectFail (initState cfgEthNoWifi)).2).earlyReturn
        = true ∧
    ((loopStep cfgEthNoWifi envConnectFail (initState cfgEthNoWifi)).2).radioPolled
        = false ∧
    ((loopStep cfgEthNoWifi envConnectFail (initState cfgEthNoWifi)).2).beaconSent
        = false :=
  claim_C1_blocking_retry_delay cfgEthNoWifi envConnectFail
    (initState cfgEthNoWifi) (by decide)

/-- C3 counterexample: starting from a state where the due flag is clear
and the counter has reached the threshold, an iteration in which Wi-Fi is
down raises the due flag, returns early without sending, and the flag
survives into the next iteration, where (Wi-Fi back, connect succeeding)
the beacon is sent late as catch-up — contradicting both that the due
signal is consumed within the iteration that raised it and that no missed
beacon is ever sent late. -/
theorem claim_C3_counterexample :
    stDueNow.beacon_aprs_is = false ∧
    ((loopStep cfgWifiBeacon envWifiDown stDueNow).1).beacon_aprs_is = true ∧
    ((loopStep cfgWifiBeacon envWifiDown stDueNow).2).beaconSent = false ∧
    ((loopStep cfgWifiBeacon envQuiet
        (loopStep cfgWifiBeacon envWifiDown stDueNow).1).2).beaconSent = true := by
  refine ⟨?_, ?_, ?_, ?_⟩ <;> decide

/-- C3 (amended): the due signal is consumed in the same iteration only
when the iteration reaches the relay tail (no early return, no FTP
restart); in that case the flag is always cleared and the beacon is sent
whenever the flag was pending or was raised in this iteration. An
iteration that returns early leaves the flag set, so the beacon is sent
later as catch-up (see the counterexample). -/
theorem claim_C3_due_consumed_only_in_tail (cfg : Config) (env : Env)
    (s : LoopState)
    (h1 : ((loopStep cfg env s).2).earlyReturn = false)
    (h2 : ((loopStep cfg env s).2).restarted = false) :
    ((loopStep cfg env s).1).beacon_aprs_is = false ∧
    ((loopStep cfg env s).2).beaconSent =
      (s.beacon_aprs_is || (cfg.aprs_is.active && cfg.aprs_is.beacon &&
        decide (cfg.aprs_is.beaconTimeout * 60 ≤ s.secondsSinceLastAPRSISBeacon))) := by
  simp only [loopStep] at h1 h2 ⊢
  split_ifs at h1 h2 ⊢ <;> simp_all [noEvents]

/-- Witness for C3 (amended): the firing iteration of the concrete
scenario consumes the flag and sends the beacon. -/
theorem claim_C3_witness :
    ((loopStep cfgWifiBeacon envQuiet stDueNow).1).beacon_aprs_is = false ∧
    ((loopStep cfgWifiBeacon envQuiet stDueNow).2).beaconSent =
      (stDueNow.beacon_aprs_is ||
        (cfgWifiBeacon.aprs_is.active && cfgWifiBeacon.aprs_is.beacon &&
          decide (cfgWifiBeacon.aprs_is.beaconTimeout * 60 ≤
            stDueNow.secondsSinceLastAPRSISBeacon))) :=
  claim_C3_due_consumed_only_in_tail cfgWifiBeacon envQuiet stDueNow
    (by decide) (by decide)

/-- C4 counterexample: on an Ethernet board with APRS-IS active and Wi-Fi
inactive, the reachable state after an Ethernet disconnect event has
link-layer connectivity down, yet the next loop iteration still makes an
APRS-IS connection attempt — the `(eth_connected && !connected) ||
(aprs_is.active && !connected)` guard of line 209 does not require the
link to be up when `aprs_is.active` is set. -/
theorem claim_C4_counterexample :
    Reachable cfgEthNoWifi benvOk stEthDown ∧
    linkUp cfgEthNoWifi envQuiet stEthDown = false ∧
    ((loopStep cfgEthNoWifi envQuiet stEthDown).2).connectAttempt = true := by
  refine ⟨?_, by decide, by decide⟩
  exact Reachable.eth (initState cfgEthNoWifi) EthEvent.ethDisconnected
    (Reachable.boot (initState cfgEthNoWifi) (by decide))

/-- C4 (amended): a connection attempt is made only when the session is
down, Wi-Fi — when active — currently reports connected, and either
`eth_connected` holds or APRS-IS is active; in particular on an Ethernet
board with APRS-IS active the attempt is not gated on `eth_connected`, so
it can happen while link-layer connectivity is not Up (see the
counterexample). -/
theorem claim_C4_attempt_guard (cfg : Config) (env : Env) (s : LoopState)
    (h : ((loopStep cfg env s).2).connectAttempt = true) :
    (cfg.wifi.active = true → env.wifiConnected = true) ∧
    (s.aprs_connected = false ∨ env.sessionLost = true) ∧
    (s.eth_connected = true ∨ cfg.aprs_is.active = true) := by
  simp only [loopStep] at h ⊢
  split_ifs at h ⊢ <;> simp_all [noEvents] <;> tauto

/-- Witness for C4 (amended), at the counterexample input. -/
theorem claim_C4_witness :
    (cfgEthNoWifi.wifi.active = true → envQuiet.wifiConnected = true) ∧
    (stEthDown.aprs_connected = false ∨ envQuiet.sessionLost = true) ∧
    (stEthDown.eth_connected = true ∨ cfgEthNoWifi.aprs_is.active = true) :=
  claim_C4_attempt_guard cfgEthNoWifi envQuiet stEthDown (by decide)

/-- C6: in every loop iteration in which the radio poll happens
(`hasMessage()` is reached) and a frame is pending, exactly one frame is
fetched, it is forwarded to the logging and display collaborators, it is
sent to APRS-IS exactly when `Config->aprs_is.active`, and whenever it is
sent the session is connected at that point (the connect block earlier in
the same iteration guarantees this). -/
theorem claim_C6_single_fetch_and_forward (cfg : Config) (env : Env)
    (s : LoopState) (f : Frame) (rest : List Frame)
    (hq : env.radioQueue = f :: rest)
    (hp : ((loopStep cfg env s).2).radioPolled = true) :
    ((loopStep cfg env s).2).fetchCount = 1 ∧
    ((loopStep cfg env s).2).loggedFrame = true ∧
    ((loopStep cfg env s).2).displayedFrame = true ∧
    ((loopStep cfg env s).2).frameSentToRelay = cfg.aprs_is.active ∧
    (((loopStep cfg env s).2).frameSentToRelay = true →
      ((loopStep cfg env s).2).sessionUp = true) := by
  simp only [loopStep] at hp ⊢
  rw [hq] at hp ⊢
  split_ifs at hp ⊢ <;> simp_all [noEvents]

/-- Witness for C6: the concrete iteration with one pending frame fetches
exactly once, forwards to log and display, and sends to the established
session. -/
theorem claim_C6_witness :
    ((loopStep cfgWifiBeacon envFrameOk stDueNow).2).fetchCount = 1 ∧
    ((loopStep cfgWifiBeacon envFrameOk stDueNow).2).loggedFrame = true ∧
    ((loopStep cfgWifiBeacon envFrameOk stDueNow).2).displayedFrame = true ∧
    ((loopStep cfgWifiBeacon envFrameOk stDueNow).2).frameSentToRelay =
      cfgWifiBeacon.aprs_is.active ∧
    (((loopStep cfgWifiBeacon envFrameOk stDueNow).2).frameSentToRelay = true →
      ((loopStep cfgWifiBeacon envFrameOk stDueNow).2).sessionUp = true) :=
  claim_C6_single_fetch_and_forward cfgWifiBeacon envFrameOk stDueNow
    "OE5BPA-10>APLG01:test frame" [] (by decide) (by decide)

/-- C7: the packet relay holds no frame across iterations: every iteration
fetches at most one frame, and the persistent loop state after an
iteration (and the iteration's events) are identical no matter which frame
sat at the head of the radio queue — a frame not delivered in its own
iteration is gone, never buffered for retry. -/
theorem claim_C7_at_most_one_fetch_no_buffering :
    (∀ (cfg : Config) (env : Env) (s : LoopState),
      ((loopStep cfg env s).2).fetchCount ≤ 1) ∧
    (∀ (cfg : Config) (o : Bool) (fc : Nat) (w cs sl : Bool) (ia : Nat)
      (f g : Frame) (rest : List Frame) (s : LoopState),
      loopStep cfg ⟨o, fc, w, cs, sl, ia, f :: rest⟩ s =
        loopStep cfg ⟨o, fc, w, cs, sl, ia, g :: rest⟩ s) := by
  constructor
  · intro cfg env s
    rcases env with ⟨o, fc, w, cs, sl, ia, q⟩
    cases q <;> (simp only [loopStep]; split_ifs <;> simp [noEvents])
  · intro cfg o fc w cs sl ia f g rest s
    simp only [loopStep, loopTail]

theorem setup_ok_eq (cfg : Config) (benv : BootEnv) (s : LoopState)
    (h : setup cfg benv = SetupResult.ok s) : s = initState cfg := by
  unfold setup at h
  split_ifs at h <;> simp_all

theorem loopStep_lastMessages (cfg : Config) (env : Env) (s : LoopState) :
    ((loopStep cfg env s).1).lastMessages = s.lastMessages := by
  rcases env with ⟨o, fc, w, cs, sl, ia, q⟩
  cases q <;> (simp only [loopStep]; split_ifs <;> simp)

theorem onTimer_lastMessages (s : LoopState) :
    (onTimer s).lastMessages = s.lastMessages := rfl

theorem WiFiEvent_lastMessages (e : EthEvent) (s : LoopState) :
    (WiFiEvent e s).lastMessages = s.lastMessages := by
  cases e <;> rfl

/-- C8: the deduplication table `lastMessages` (line 62) is never populated
and never consulted: starting from any successful boot, it is the empty
map in every reachable state, under every sequence of loop iterations,
timer ticks, and Ethernet link events. -/
theorem claim_C8_dedup_table_always_empty (cfg : Config) (benv : BootEnv)
    (s : LoopState) (h : Reachable cfg benv s) : s.lastMessages = [] := by
  induction h with
  | boot s hs => rw [setup_ok_eq cfg benv s hs]; rfl
  | loop s env _ ih => rw [loopStep_lastMessages]; exact ih
  | tick s _ ih => rw [onTimer_lastMessages]; exact ih
  | eth s e _ ih => rw [WiFiEvent_lastMessages]; exact ih

/-- Witness for C8: the boot state of a concrete configuration has an empty
deduplication table. -/
theorem claim_C8_witness : (initState cfgWifiBeacon).lastMessages = [] :=
  claim_C8_dedup_table_always_empty cfgWifiBeacon benvOk (initState cfgWifiBeacon)
    (Reachable.boot (initState cfgWifiBeacon) (by decide))

/-- C9: every invalid boot configuration (callsign still `NOCALL-10`, or
APRS-IS active without Wi-Fi on a non-Ethernet board) and every unusable
hardware condition (no board config found even by search, LoRa radio
failing to start) prevents `setup` from ever handing a state to the main
loop; the outcome is the `halted` busy-wait — directly whenever the board
config is present or the search also fails, and on the boot following the
board-search `ESP.restart()` (which persists the found board, so the next
boot has `boardFound`) otherwise. The `halted` state is terminal: no
transition leaves it. -/
theorem claim_C9_fatal_setup_halts (cfg : Config) (benv : BootEnv)
    (h : cfg.callsign = "NOCALL-10" ∨
      (cfg.board_is_eth = false ∧ cfg.aprs_is.active = true ∧
        cfg.wifi.active = false) ∨
      (benv.boardFound = false ∧ benv.searchFound = false) ∨
      benv.loraBeginOk = false) :
    (∀ s : LoopState, setup cfg benv ≠ SetupResult.ok s) ∧
    (benv.boardFound = true ∨ benv.searchFound = false →
      ∃ r, setup cfg benv = SetupResult.halted r) ∧
    (benv.boardFound = false → benv.searchFound = true →
      ∃ r, setup cfg { benv with boardFound := true } = SetupResult.halted r) := by
  refine ⟨?_, ?_, ?_⟩
  · intro s hs
    unfold setup at hs
    split_ifs at hs <;> simp_all
  · intro hb
    unfold setup
    split_ifs <;> first
      | exact ⟨_, rfl⟩
      | simp_all
  · intro hb1 hb2
    unfold setup
    split_ifs <;> first
      | exact ⟨_, rfl⟩
      | simp_all

/-- Witness for C9: with the default callsign the boot never reaches the
main loop. -/
theorem claim_C9_witness :
    setup cfgNoCall benvOk ≠ SetupResult.ok (initState cfgNoCall) :=
  (claim_C9_fatal_setup_halts cfgNoCall benvOk (Or.inl rfl)).1
    (initState cfgNoCall)

theorem loopStep_restarted (cfg : Config) (env : Env) (s : LoopState) :
    ((loopStep cfg env s).2).restarted =
      (cfg.ftp.active && s.configWasOpen && (env.ftpConnections == 0)) := by
  rcases env with ⟨o, fc, w, cs, sl, ia, q⟩
  cases q <;>
    (simp only [loopStep]; split_ifs <;> simp_all [noEvents, ftpRestart])

theorem loopStep_configWasOpen (cfg : Config) (env : Env) (s : LoopState)
    (h : ((loopStep cfg env s).2).restarted = false) :
    ((loopStep cfg env s).1).configWasOpen =
      (s.configWasOpen || (cfg.ftp.active && (env.ftpConnections != 0))) := by
  rw [loopStep_restarted] at h
  rcases env with ⟨o, fc, w, cs, sl, ia, q⟩
  cases q <;>
    (simp only [loopStep]; split_ifs <;> simp_all [noEvents, ftpRestart])

theorem runTrace_no_observation (cfg : Config) :
    ∀ (envs : List Env) (s : LoopState), s.configWasOpen = false →
      (∀ e ∈ envs, e.ftpConnections = 0) →
      (runTrace cfg s envs).2 = false := by
  intro envs
  induction envs with
  | nil =>
    intro s _ _
    rfl
  | cons e es ih =>
    intro s hs he
    have he0 : e.ftpConnections = 0 := he e (List.mem_cons_self e es)
    have hr : ((loopStep cfg e s).2).restarted = false := by
      rw [loopStep_restarted]
      simp [hs]
    have hcw : ((loopStep cfg e s).1).configWasOpen = false := by
      rw [loopStep_configWasOpen cfg e s hr]
      simp [hs, he0]
    simp only [runTrace, hr]
    simpa using ih ((loopStep cfg e s).1) hcw
      (fun a ha => he a (List.mem_cons_of_mem _ ha))

/-- C10: with FTP active, (a) in a run from boot in which no iteration ever
observes an open FTP connection, no restart happens; (b) once a connection
has been observed (`configWasOpen` latched), the first iteration observing
zero connections restarts the device; (c) a restart happens only in an
iteration with FTP active, a previously observed connection, and zero
connections now; (d) an iteration observing an open connection never
restarts and latches the observation flag. -/
theorem claim_C10_restart_after_ftp_observation :
    (∀ (cfg : Config) (envs : List Env),
      (∀ e ∈ envs, e.ftpConnections = 0) →
      (runTrace cfg (initState cfg) envs).2 = false) ∧
    (∀ (cfg : Config) (env : Env) (s : LoopState),
      cfg.ftp.active = true → s.configWasOpen = true →
      env.ftpConnections = 0 →
      ((loopStep cfg env s).2).restarted = true) ∧
    (∀ (cfg : Config) (env : Env) (s : LoopState),
      ((loopStep cfg env s).2).restarted = true →
      cfg.ftp.active = true ∧ s.configWasOpen = true ∧
        env.ftpConnections = 0) ∧
    (∀ (cfg : Config) (env : Env) (s : LoopState),
      cfg.ftp.active = true → env.ftpConnections ≠ 0 →
      ((loopStep cfg env s).2).restarted = false ∧
      ((loopStep cfg env s).1).configWasOpen = true) := by
  refine ⟨?_, ?_, ?_, ?_⟩
  · intro cfg envs he
    exact runTrace_no_observation cfg envs (initState cfg) rfl he
  · intro cfg env s h1 h2 h3
    rw [loopStep_restarted]
    simp [h1, h2, h3]
  · intro cfg env s h
    rw [loopStep_restarted] at h
    simp_all
  · intro cfg env s h1 h2
    have hr : ((loopStep cfg env s).2).restarted = false := by
      rw [loopStep_restarted]
      simp [h2]
    refine ⟨hr, ?_⟩
    rw [loopStep_configWasOpen cfg env s hr]
    simp [h1, h2]

/-- Witness for C10: the concrete FTP configuration, in a state where a
connection has been observed, restarts on observing zero connections. -/
theorem claim_C10_witness :
    ((loopStep cfgWifiFtp envQuiet stFtpSeen).2).restarted = true :=
  claim_C10_restart_after_ftp_observation.2.1 cfgWifiFtp envQuiet stFtpSeen
    rfl rfl rfl

end LoRaIGate
